import Mathlib

/-!
Verification of `examples/webpage_summary_task/main.py`: a shallow embedding of
the URL safety validator (`is_private_ip`, `is_url_safe`), the task executor
(`execute_webpage_summary_task`), the ledger query (`get_pending_tasks`) and the
polling loop (`task_subscriber`).  External effectful collaborators (the system
resolver `socket.getaddrinfo`, the `json` decoder applied to task arguments, the
`rooch` ledger CLI calls and the browser agent backend) are modelled as explicit
oracle parameters; the deterministic Python stdlib functions the code calls
(`ipaddress.ip_address`, `urllib.parse.urlparse`) are embedded as executable
Lean functions following the CPython implementations.
-/

namespace NuwaWS

/-! ## Model of `ipaddress.ip_address` and the address classification used by
`is_private_ip` (main.py lines 27-33). -/

def isDigitChar (c : Char) : Bool := '0' ≤ c && c ≤ '9'

def isHexChar (c : Char) : Bool :=
  isDigitChar c || ('a' ≤ c && c ≤ 'f') || ('A' ≤ c && c ≤ 'F')

def hexVal (c : Char) : Nat :=
  if isDigitChar c then c.toNat - 48
  else if 'a' ≤ c && c ≤ 'f' then c.toNat - 87
  else c.toNat - 55

/-- Split a character list at every occurrence of `sep`, like Python
`str.split(sep)` (so the result is never empty and empty segments are kept). -/
def splitChars (sep : Char) : List Char → List (List Char)
  | [] => [[]]
  | c :: cs =>
    let r := splitChars sep cs
    if c == sep then [] :: r
    else
      match r with
      | [] => [[c]]
      | h :: t => (c :: h) :: t

/-- `l` ends with `suf`, like Python `str.endswith`. -/
def listEndsWith (l suf : List Char) : Bool :=
  List.isPrefixOf suf.reverse l.reverse

/-- Models CPython `ipaddress._parse_octet`: decimal digits only, at most 3
characters, no leading zero, value at most 255. `none` models `ValueError`. -/
def parseOctet (l : List Char) : Option Nat :=
  if l.isEmpty then none
  else if !(l.all isDigitChar) then none
  else if l.length > 3 then none
  else if l.length > 1 && l.head? == some '0' then none
  else
    let n := l.foldl (fun a c => a * 10 + (c.toNat - 48)) 0
    if n > 255 then none else some n

/-- Models CPython `IPv4Address._ip_int_from_string`: exactly four
dot-separated octets, big-endian packing. -/
def parseIPv4L (l : List Char) : Option Nat :=
  let parts := splitChars '.' l
  if parts.length ≠ 4 then none
  else match parts.mapM parseOctet with
    | none => none
    | some os => some (os.foldl (fun a o => a * 256 + o) 0)

def parseIPv4 (s : String) : Option Nat := parseIPv4L s.data

/-- Models CPython `IPv6Address._parse_hextet`: hex digits only, at most 4. -/
def parseHextet (l : List Char) : Option Nat :=
  if l.isEmpty then none
  else if !(l.all isHexChar) then none
  else if l.length > 4 then none
  else some (l.foldl (fun a c => a * 16 + hexVal c) 0)

def natToHexChars (n : Nat) : List Char := Nat.toDigits 16 n

/-- Models the core of CPython `IPv6Address._ip_int_from_string`: colon-split
groups, an optional trailing dotted-quad (rewritten into two hextets, as
CPython does), at most one `::` run, and the hi/lo packing around the skipped
zero groups. -/
def parseIPv6Core (l : List Char) : Option Nat :=
  let parts0 := splitChars ':' l
  if parts0.length < 3 then none
  else
    let expanded : Option (List (List Char)) :=
      match parts0.getLast? with
      | none => none
      | some last =>
        if last.contains '.' then
          match parseIPv4L last with
          | none => none
          | some v4 =>
            some (parts0.dropLast ++
              [natToHexChars (v4 / 65536), natToHexChars (v4 % 65536)])
        else some parts0
    match expanded with
    | none => none
    | some parts =>
      let n := parts.length
      let innerEmpties :=
        (List.range n).filter
          (fun i => decide (0 < i ∧ i + 1 < n) && (parts.getD i ['x']).isEmpty)
      match innerEmpties with
      | [] =>
        if n ≠ 8 then none
        else if (parts.headD ['x']).isEmpty then none
        else if (parts.getLastD ['x']).isEmpty then none
        else match parts.mapM parseHextet with
          | none => none
          | some hs => some (hs.foldl (fun a h => a * 65536 + h) 0)
      | [i] =>
        let hi0 := i
        let lo0 := n - i - 1
        let headEmpty := (parts.headD ['x']).isEmpty
        let lastEmpty := (parts.getLastD ['x']).isEmpty
        let hi := if headEmpty then hi0 - 1 else hi0
        let lo := if lastEmpty then lo0 - 1 else lo0
        if headEmpty && hi ≠ 0 then none
        else if lastEmpty && lo ≠ 0 then none
        else if hi + lo ≥ 8 then none
        else
          let skipped := 8 - (hi + lo)
          match (parts.take hi).mapM parseHextet, (parts.drop (n - lo)).mapM parseHextet with
          | some hvs, some lvs =>
            let x := hvs.foldl (fun a h => a * 65536 + h) 0
            some (lvs.foldl (fun a h => a * 65536 + h) (x * 65536 ^ skipped))
          | _, _ => none
      | _ => none

/-- Models CPython `IPv6Address.__init__` string handling: an optional
`%scope_id` suffix (split at the first `%`; the scope must be non-empty and
must not itself contain `%`), then the core parse. -/
def parseIPv6 (s : String) : Option Nat :=
  match splitChars '%' s.data with
  | [addr] => parseIPv6Core addr
  | [addr, scope] => if scope.isEmpty then none else parseIPv6Core addr
  | _ => none

inductive IPAddr where
  | v4 (n : Nat)
  | v6 (n : Nat)
deriving Repr, DecidableEq

/-- Models `ipaddress.ip_address(str)`: try `IPv4Address`, then `IPv6Address`;
`none` models the final `ValueError`. -/
def ip_address (s : String) : Option IPAddr :=
  match parseIPv4 s with
  | some v => some (IPAddr.v4 v)
  | none =>
    match parseIPv6 s with
    | some v => some (IPAddr.v6 v)
    | none => none

/-- `ip` is in the network with network address `net` and prefix length `len`,
inside an address space of `w` bits. -/
def inNet (w ip net len : Nat) : Bool := ip / 2 ^ (w - len) == net / 2 ^ (w - len)

def mkV4 (a b c d : Nat) : Nat := ((a * 256 + b) * 256 + c) * 256 + d

/-- CPython `IPv4Address.is_private`: membership in the `_private_networks`
list of the `ipaddress` module. -/
def v4IsPrivate (n : Nat) : Bool :=
  inNet 32 n (mkV4 0 0 0 0) 8 || inNet 32 n (mkV4 10 0 0 0) 8 ||
  inNet 32 n (mkV4 127 0 0 0) 8 || inNet 32 n (mkV4 169 254 0 0) 16 ||
  inNet 32 n (mkV4 172 16 0 0) 12 || inNet 32 n (mkV4 192 0 0 0) 29 ||
  inNet 32 n (mkV4 192 0 0 170) 31 || inNet 32 n (mkV4 192 0 2 0) 24 ||
  inNet 32 n (mkV4 192 168 0 0) 16 || inNet 32 n (mkV4 198 18 0 0) 15 ||
  inNet 32 n (mkV4 198 51 100 0) 24 || inNet 32 n (mkV4 203 0 113 0) 24 ||
  inNet 32 n (mkV4 240 0 0 0) 4 || inNet 32 n (mkV4 255 255 255 255) 32

/-- CPython `IPv6Address.is_private`: membership in the IPv6
`_private_networks` list of the `ipaddress` module. -/
def v6IsPrivate (n : Nat) : Bool :=
  n == 1 || n == 0 ||
  inNet 128 n (0xffff * 2 ^ 32) 96 ||
  inNet 128 n (0x100 * 2 ^ 112) 64 ||
  inNet 128 n (0x2001 * 2 ^ 112) 23 ||
  inNet 128 n (0x20010002 * 2 ^ 96) 48 ||
  inNet 128 n (0x20010db8 * 2 ^ 96) 32 ||
  inNet 128 n (0x20010010 * 2 ^ 96) 28 ||
  inNet 128 n (0xfc00 * 2 ^ 112) 7 ||
  inNet 128 n (0xfe80 * 2 ^ 112) 10

def ipIsPrivate : IPAddr → Bool
  | IPAddr.v4 n => v4IsPrivate n
  | IPAddr.v6 n => v6IsPrivate n

def ipIsLoopback : IPAddr → Bool
  | IPAddr.v4 n => inNet 32 n (mkV4 127 0 0 0) 8
  | IPAddr.v6 n => n == 1

def ipIsLinkLocal : IPAddr → Bool
  | IPAddr.v4 n => inNet 32 n (mkV4 169 254 0 0) 16
  | IPAddr.v6 n => inNet 128 n (0xfe80 * 2 ^ 112) 10

/-- Embedding of `is_private_ip` (main.py lines 27-33): parse with
`ipaddress.ip_address`, returning `False` on `ValueError`, else
`ip.is_private or ip.is_loopback or ip.is_link_local`. -/
def is_private_ip (ip_str : String) : Bool :=
  match ip_address ip_str with
  | none => false
  | some ip => ipIsPrivate ip || ipIsLoopback ip || ipIsLinkLocal ip

/-! ## Model of `urllib.parse.urlparse` as used by `is_url_safe`
(scheme, netloc and the `hostname` property; CPython `urlsplit`). -/

def isAsciiAlpha (c : Char) : Bool := ('a' ≤ c && c ≤ 'z') || ('A' ≤ c && c ≤ 'Z')

def isSchemeChar (c : Char) : Bool :=
  isAsciiAlpha c || isDigitChar c || c == '+' || c == '-' || c == '.'

def lowerAscii (c : Char) : Char :=
  if 'A' ≤ c && c ≤ 'Z' then Char.ofNat (c.toNat + 32) else c

def lowerStr (s : String) : String := ⟨s.data.map lowerAscii⟩

/-- CPython `urlsplit` input sanitation: strip leading/trailing
C0-control-or-space characters, then remove tab, carriage return, newline. -/
def sanitizeUrl (s : String) : List Char :=
  let l := s.data.dropWhile (fun c => c.toNat ≤ 32)
  let l := (l.reverse.dropWhile (fun c => c.toNat ≤ 32)).reverse
  l.filter (fun c => !(c == '\t' || c == '\r' || c == '\n'))

/-- CPython `urlsplit` scheme detection: a `:` at a positive index whose
prefix starts with an ASCII letter and consists of scheme characters; the
scheme is lowercased, otherwise the URL is left unchanged with scheme `""`. -/
def splitScheme (l : List Char) : String × List Char :=
  match l.findIdx? (· == ':') with
  | none => ("", l)
  | some i =>
    if i > 0 then
      let pre := l.take i
      match pre.head? with
      | some c0 =>
        if isAsciiAlpha c0 && pre.all isSchemeChar then (lowerStr ⟨pre⟩, l.drop (i + 1))
        else ("", l)
      | none => ("", l)
    else ("", l)

/-- CPython `_splitnetloc`: the netloc runs until the first of `/`, `?`, `#`. -/
def splitNetlocChars (l : List Char) : List Char × List Char :=
  (l.takeWhile (fun c => !(c == '/' || c == '?' || c == '#')),
   l.dropWhile (fun c => !(c == '/' || c == '?' || c == '#')))

structure SplitResult where
  scheme : String
  netloc : String
  rest : String
deriving Repr, DecidableEq

/-- Embedding of `urllib.parse.urlsplit` restricted to the fields
`is_url_safe` reads (`scheme`, `netloc`, and the remainder).  The
`ValueError("Invalid IPv6 URL")` raised on unbalanced brackets in the netloc
is modelled as `Except.error`. -/
def urlsplit (url : String) : Except String SplitResult :=
  let u := sanitizeUrl url
  let su := splitScheme u
  if su.2.take 2 = ['/', '/'] then
    let nr := splitNetlocChars (su.2.drop 2)
    if (nr.1.contains '[' && !(nr.1.contains ']')) ||
       (nr.1.contains ']' && !(nr.1.contains '[')) then
      Except.error "Invalid IPv6 URL"
    else Except.ok ⟨su.1, ⟨nr.1⟩, ⟨nr.2⟩⟩
  else Except.ok ⟨su.1, "", ⟨su.2⟩⟩

/-- CPython `ParseResult.hostname`: the part of the netloc after the last
`@`; if it contains `[`, the part between `[` and `]`, else the part before
the first `:`; lowercased, and `None` when empty. -/
def hostname (p : SplitResult) : Option String :=
  let hostinfo := (p.netloc.data.reverse.takeWhile (· != '@')).reverse
  let h :=
    if hostinfo.contains '[' then
      ((hostinfo.dropWhile (· != '[')).drop 1).takeWhile (· != ']')
    else hostinfo.takeWhile (· != ':')
  if h.isEmpty then none else some (lowerStr ⟨h⟩)

/-! ## Embedding of `is_url_safe` (main.py lines 35-62).
The system resolver `socket.getaddrinfo` is an oracle parameter: it may
succeed with a list of address strings (the `addr[4][0]` projections), raise
`socket.gaierror`, or raise any other exception. -/

inductive ResolveOutcome where
  | ok (addrs : List String)
  | gaierror
  | err (msg : String)

def hostStr : Option String → String
  | none => "None"
  | some s => s

/-- The loop at main.py lines 55-57: first private address wins, otherwise
the URL is safe. -/
def checkAddrs : List String → Bool × String
  | [] => (true, "URL is safe")
  | ip :: rest =>
    if is_private_ip ip then
      (false, "Access to internal network addresses is not allowed: " ++ ip)
    else checkAddrs rest

/-- The body of the outer `try` of `is_url_safe`: `Except.error` models an
exception escaping to the outer handler (a `ValueError` from `urlparse` or a
non-`gaierror` exception from the resolver). -/
def is_url_safe_body (url : String) (resolve : Option String → ResolveOutcome) :
    Except String (Bool × String) :=
  match urlsplit url with
  | Except.error e => Except.error e
  | Except.ok p =>
    if ¬ (p.scheme = "http" ∨ p.scheme = "https") then
      Except.ok (false, "Only HTTP and HTTPS protocols are allowed")
    else if p.netloc = "" then
      Except.ok (false, "Invalid URL format")
    else
      match resolve (hostname p) with
      | ResolveOutcome.gaierror =>
        Except.ok (false, "Could not resolve hostname: " ++ hostStr (hostname p))
      | ResolveOutcome.err m => Except.error m
      | ResolveOutcome.ok addrs => Except.ok (checkAddrs addrs)

/-- Embedding of `is_url_safe`: the body wrapped in the outer
`except Exception` handler of main.py lines 61-62. -/
def is_url_safe (url : String) (resolve : Option String → ResolveOutcome) :
    Bool × String :=
  match is_url_safe_body url resolve with
  | Except.ok v => v
  | Except.error e => (false, "URL validation error: " ++ e)

/-! ## Embedding of `TaskHandler.execute_webpage_summary_task`
(main.py lines 301-363).

The task dict built by `get_pending_tasks` (or handed in by debug mode) is a
structure; Python truthiness of `task_id` (`None` or `""` are falsy) is
`pyTruthyStr`.  External calls are oracle fields of `Env`:
`jsonArgs` models `json.loads(task['args'])['url']` / `.get('lang')`
(error = the raised `JSONDecodeError`/`KeyError` message), `resolve` is the
resolver passed through to `is_url_safe`, and `startOutcome` /
`agentRun` / `resolveOutcome` / `failOutcome` give the outcome of
`start_task`, agent construction + `agent.run()` + `final_result()`, and
`resolve_task` / `fail_task` (which print and re-raise on error, so from the
executor they either succeed or raise).  The executor's observable behavior
is a trace of calls plus the optionally re-raised exception message. -/

structure PyTask where
  task_id : Option String
  args : String
  status : Option Nat
  name : String
  resolver : String
  creator : String
deriving Repr, DecidableEq

def pyTruthyStr : Option String → Bool
  | none => false
  | some s => !(s == "")

inductive ArgsOutcome where
  | ok (url : String) (lang : Option String)
  | err (msg : String)

inductive CallOutcome where
  | ok
  | err (msg : String)

inductive AgentOutcome where
  | ok (summary : String)
  | err (msg : String)

structure Env where
  jsonArgs : String → ArgsOutcome
  resolve : Option String → ResolveOutcome
  startOutcome : String → String → CallOutcome
  agentRun : String → String → AgentOutcome
  resolveOutcome : String → String → CallOutcome
  failOutcome : String → String → CallOutcome

inductive Call where
  | failT (id msg : String)
  | startT (id msg : String)
  | agentT (url lang : String)
  | resolveT (id res : String)
  | logT (msg : String)
deriving Repr, DecidableEq

/-- The outer `except Exception` at main.py lines 359-363: log the error and
re-raise it only when the task carries no (truthy) `task_id`. -/
def outerCatch (task_id : Option String) (tr : List Call) (m : String) :
    List Call × Option String :=
  (tr ++ [Call.logT ("Error executing webpage summary task: " ++ m)],
   if pyTruthyStr task_id then none else some m)

/-- The inner `except Exception` at main.py lines 351-357: wrap the message,
attempt `fail_task` when a task id is present (that attempt may itself raise,
replacing the re-raised exception), then the outer handler catches. -/
def innerCatch (env : Env) (task_id : Option String) (tr : List Call) (m : String) :
    List Call × Option String :=
  let em := "Failed to process webpage: " ++ m
  if pyTruthyStr task_id then
    let idv := task_id.getD ""
    match env.failOutcome idv em with
    | CallOutcome.ok => outerCatch task_id (tr ++ [Call.failT idv em]) m
    | CallOutcome.err m2 => outerCatch task_id (tr ++ [Call.failT idv em]) m2
  else outerCatch task_id (tr ++ [Call.logT ("Error: " ++ em)]) m

/-- The `Started` step at main.py lines 319-323: when `doStart` (truthy id
and status Pending), attempt `start_task` (whose error would propagate to the
outer handler); returns the attempted calls and the propagating error. -/
def startPhase (env : Env) (idv : String) (doStart : Bool) (smsg : String) :
    List Call × Option String :=
  if doStart then
    ([Call.startT idv smsg],
     match env.startOutcome idv smsg with
     | CallOutcome.ok => none
     | CallOutcome.err m => some m)
  else ([], none)

/-- The inner `try` at main.py lines 325-357: run the agent, then either
`resolve_task` (truthy id) or print the response; any exception goes through
the inner handler `innerCatch`. -/
def runPhase (env : Env) (task_id : Option String) (startTr : List Call)
    (url lang : String) : List Call × Option String :=
  match env.agentRun url lang with
  | AgentOutcome.err m => innerCatch env task_id (startTr ++ [Call.agentT url lang]) m
  | AgentOutcome.ok summary =>
    if pyTruthyStr task_id then
      match env.resolveOutcome (task_id.getD "") summary with
      | CallOutcome.ok =>
        (startTr ++ [Call.agentT url lang, Call.resolveT (task_id.getD "") summary], none)
      | CallOutcome.err m =>
        innerCatch env task_id
          (startTr ++ [Call.agentT url lang, Call.resolveT (task_id.getD "") summary]) m
    else
      (startTr ++ [Call.agentT url lang, Call.logT ("Summary Result: " ++ summary)], none)

/-- Embedding of `execute_webpage_summary_task`: returns the trace of external
calls/log lines and `some msg` iff the coroutine re-raises an exception. -/
def execute_webpage_summary_task (env : Env) (task : PyTask) :
    List Call × Option String :=
  let task_id := task.task_id
  match env.jsonArgs task.args with
  | ArgsOutcome.err m => outerCatch task_id [] m
  | ArgsOutcome.ok url langOpt =>
    let lang := langOpt.getD "en"
    match is_url_safe url env.resolve with
    | (is_safe, reason) =>
      if is_safe then
        let sp := startPhase env (task_id.getD "")
          (pyTruthyStr task_id && task.status == some 0)
          ("Processing webpage: " ++ url)
        match sp.2 with
        | some m => outerCatch task_id sp.1 m
        | none => runPhase env task_id sp.1 url lang
      else
        let em := "Security Error: " ++ reason
        if pyTruthyStr task_id then
          let idv := task_id.getD ""
          match env.failOutcome idv em with
          | CallOutcome.ok => outerCatch task_id [Call.failT idv em] em
          | CallOutcome.err m2 => outerCatch task_id [Call.failT idv em] m2
        else outerCatch task_id [Call.logT ("Error: " ++ em)] em

def isFailT : Call → Bool
  | Call.failT _ _ => true
  | _ => false

def isAgentT : Call → Bool
  | Call.agentT _ _ => true
  | _ => false

def isTerminalT : Call → Bool
  | Call.failT _ _ => true
  | Call.resolveT _ _ => true
  | _ => false

def countFail (tr : List Call) : Nat := tr.countP isFailT

def countAgent (tr : List Call) : Nat := tr.countP isAgentT

def countTerminal (tr : List Call) : Nat := tr.countP isTerminalT

/-! ## Embedding of `TaskHandler.get_pending_tasks` (main.py lines 200-247).

The `rooch object` CLI call through `run_command` is an oracle: it may raise
(`CmdResult.raised`), return `None` (no JSON in stdout), or return a JSON
dict whose optional `data` key holds a list of objects.  Each object carries
an optional `id` (a missing `id` makes `obj['id']` raise `KeyError`, and the
surrounding `except` makes the whole function return `[]`), an optional
`decoded_value.type` and an optional `decoded_value.value` record. -/

structure TaskValue where
  status : Option Nat
  name : Option String
  arguments : Option String
  resolver : Option String
  response_channel_id : Option String
deriving Repr, DecidableEq

structure RawObj where
  id : Option String
  dvType : Option String
  dvValue : Option TaskValue
deriving Repr, DecidableEq

inductive CmdResult where
  | raised (msg : String)
  | noJson
  | ok (data : Option (List RawObj))

def emptyTaskValue : TaskValue := ⟨none, none, none, none, none⟩

/-- The filtering loop of `get_pending_tasks`: keep objects whose
`decoded_value.type` ends with `::task::Task` and whose `status` is 0 or 1;
`Except.error` models the `KeyError` from `obj['id']`. -/
def buildPending : List RawObj → Except Unit (List PyTask)
  | [] => Except.ok []
  | o :: os =>
    if listEndsWith (o.dvType.getD "").data "::task::Task".data then
      let td := o.dvValue.getD emptyTaskValue
      match td.status with
      | some s =>
        if s == 0 || s == 1 then
          match o.id with
          | none => Except.error ()
          | some i =>
            (buildPending os).map (fun rest =>
              { task_id := some i, args := td.arguments.getD "\x7b\x7d",
                status := some s, name := td.name.getD "",
                resolver := td.resolver.getD "",
                creator := td.response_channel_id.getD "" } :: rest)
        else buildPending os
      | none => buildPending os
    else buildPending os

/-- Embedding of `get_pending_tasks`: any exception (a raising command, or a
`KeyError` while building the list) is caught and yields `[]`. -/
def get_pending_tasks (res : CmdResult) : List PyTask :=
  match res with
  | CmdResult.raised _ => []
  | CmdResult.noJson => []
  | CmdResult.ok none => []
  | CmdResult.ok (some objs) =>
    match buildPending objs with
    | Except.ok l => l
    | Except.error _ => []

/-! ## Embedding of `TaskHandler.task_subscriber` (main.py lines 365-390).

The shutdown event is modelled by a schedule `sched : Nat → Bool` giving the
value of each successive `shutdown_event.is_set()` observation (index = the
observation counter); one observation is consumed at each loop head and one
before each task of a cycle.  `pending cyc` is the list returned by
`get_pending_tasks` in cycle `cyc` (that call catches its own exceptions and
returns a list).  The `asyncio.wait_for(shutdown_event.wait(), poll_interval)`
sleep is recorded as a `waitE` event carrying the configured timeout; whether
it times out or sees the event, control returns to the loop-head check, so it
causes no branching.  `fuel` bounds the number of modelled cycles (the trace
is a finite prefix of the run). -/

structure SubCfg where
  poll_interval : Option Nat

inductive SEv where
  | pollE (k : Nat)
  | dispatchE (k : Nat) (t : PyTask)
  | waitE (timeout : Nat)
deriving Repr, DecidableEq

/-- The `for task in tasks` loop: one `is_set` observation per task (index
`k`), `break` when it is set, dispatch only tasks named
`task::webpage_summary`; returns the events and the next observation index. -/
def procTasks (sched : Nat → Bool) : List PyTask → Nat → List SEv × Nat
  | [], k => ([], k)
  | t :: ts, k =>
    if sched k then ([], k + 1)
    else
      let r := procTasks sched ts (k + 1)
      if t.name = "task::webpage_summary" then (SEv.dispatchE k t :: r.1, r.2)
      else r

/-- Embedding of `task_subscriber`: the `while not shutdown_event.is_set()`
loop producing the trace of `listPending` polls, dispatches and waits. -/
def task_subscriber (cfg : SubCfg) (pending : Nat → List PyTask)
    (sched : Nat → Bool) : Nat → Nat → Nat → List SEv
  | 0, _, _ => []
  | fuel + 1, k, cyc =>
    if sched k then []
    else
      let r := procTasks sched (pending cyc) (k + 1)
      SEv.pollE k :: r.1 ++
        SEv.waitE (cfg.poll_interval.getD 1) ::
          task_subscriber cfg pending sched fuel r.2 (cyc + 1)

/-! ## Concrete environments used as witnesses. -/

/-- A resolver oracle that knows one host and fails on everything else. -/
def resolveFixed (host : String) (addrs : List String) :
    Option String → ResolveOutcome :=
  fun h => if h == some host then ResolveOutcome.ok addrs else ResolveOutcome.gaierror

/-- A resolver for a host that round-robins a public address first and a
private address second. -/
def resolveRoundRobin : Option String → ResolveOutcome :=
  resolveFixed "h.example" ["93.184.216.34", "10.0.0.1"]

/-- A resolver whose call raises a non-`gaierror` exception. -/
def resolveBoom : Option String → ResolveOutcome := fun _ => ResolveOutcome.err "boom"

/-- Baseline executor environment: argument decoding raises a
`JSONDecodeError`, every ledger call succeeds, the agent returns a summary. -/
def envBaseW : Env where
  jsonArgs := fun _ => ArgsOutcome.err "Expecting value: line 1 column 1 (char 0)"
  resolve := resolveFixed "ok.example" ["93.184.216.34"]
  startOutcome := fun _ _ => CallOutcome.ok
  agentRun := fun _ _ => AgentOutcome.ok "summary text"
  resolveOutcome := fun _ _ => CallOutcome.ok
  failOutcome := fun _ _ => CallOutcome.ok

/-- A ledger-delivered pending task (truthy `task_id`, status Pending). -/
def taskW : PyTask :=
  { task_id := some "0x1", args := "argstring", status := some 0,
    name := "task::webpage_summary", resolver := "0xr", creator := "0xc" }

/-- Environment whose task arguments decode to the private URL of the spec's
end-to-end scenario 1. -/
def env5W : Env := { envBaseW with jsonArgs := fun _ => ArgsOutcome.ok "http://10.0.0.5/" none, resolve := resolveFixed "10.0.0.5" ["10.0.0.5"] }

/-- Environment with a safe URL whose `start_task` ledger submit raises. -/
def env6W : Env := { envBaseW with jsonArgs := fun _ => ArgsOutcome.ok "http://ok.example/" none, startOutcome := fun _ _ => CallOutcome.err "Transaction failed: moveabort" }

/-- Environment with a safe URL whose `resolve_task` ledger submit raises. -/
def env7W : Env := { envBaseW with jsonArgs := fun _ => ArgsOutcome.ok "http://ok.example/" (some "zh"), resolveOutcome := fun _ _ => CallOutcome.err "rpc down" }

/-- A concrete ledger query answer holding one pending `task::Task` object. -/
def cmdW : CmdResult :=
  CmdResult.ok (some
    [{ id := some "0xa", dvType := some "0xp::task::Task",
       dvValue := some { status := some 0, name := some "task::webpage_summary",
                         arguments := some "argstring", resolver := some "0xr",
                         response_channel_id := some "0xc" } }])

/-- The task `get_pending_tasks cmdW` yields. -/
def pendW : PyTask :=
  { task_id := some "0xa", args := "argstring", status := some 0,
    name := "task::webpage_summary", resolver := "0xr", creator := "0xc" }

/-! ## Helper lemmas (shared). -/

theorem checkAddrs_private (l : List String) (a : String) (ha : a ∈ l)
    (hp : is_private_ip a = true) :
    (checkAddrs l).1 = false ∧ ∃ b ∈ l, is_private_ip b = true ∧
      (checkAddrs l).2 = "Access to internal network addresses is not allowed: " ++ b := by
  induction l with
  | nil => simp at ha
  | cons x xs ih =>
    by_cases hx : is_private_ip x = true
    · refine ⟨?_, x, List.mem_cons_self x xs, hx, ?_⟩ <;> simp [checkAddrs, hx]
    · have hax : a ∈ xs := by
        rcases List.mem_cons.mp ha with h | h
        · exact absurd (h ▸ hp) hx
        · exact h
      obtain ⟨h1, b, hb, hbp, h2⟩ := ih hax
      have hxf : is_private_ip x = false := by
        cases hcase : is_private_ip x
        · rfl
        · exact absurd hcase hx
      refine ⟨?_, b, List.mem_cons_of_mem x hb, hbp, ?_⟩ <;>
        simpa [checkAddrs, hxf] using (by first | exact h1 | exact h2)

theorem is_url_safe_body_resolved (url : String)
    (resolve : Option String → ResolveOutcome) (p : SplitResult)
    (addrs : List String) (hp : urlsplit url = Except.ok p)
    (hs : p.scheme = "http" ∨ p.scheme = "https") (hn : p.netloc ≠ "")
    (hr : resolve (hostname p) = ResolveOutcome.ok addrs) :
    is_url_safe url resolve = checkAddrs addrs := by
  unfold is_url_safe is_url_safe_body
  rw [hp]
  simp only [if_neg (not_not_intro hs), if_neg hn, hr]

/-- C1: a URL whose resolved address set contains a private, loopback or
link-local address anywhere in the list is rejected by `is_url_safe`, with a
reason naming an offending address; the scan covers the whole resolved set,
not only its first element. -/
theorem C1_private_resolved_unsafe (url : String)
    (resolve : Option String → ResolveOutcome) (p : SplitResult)
    (addrs : List String) (a : String)
    (hp : urlsplit url = Except.ok p)
    (hs : p.scheme = "http" ∨ p.scheme = "https")
    (hn : p.netloc ≠ "")
    (hr : resolve (hostname p) = ResolveOutcome.ok addrs)
    (ha : a ∈ addrs) (hpriv : is_private_ip a = true) :
    (is_url_safe url resolve).1 = false ∧
      ∃ b ∈ addrs, is_private_ip b = true ∧
        (is_url_safe url resolve).2 =
          "Access to internal network addresses is not allowed: " ++ b := by
  rw [is_url_safe_body_resolved url resolve p addrs hp hs hn hr]
  exact checkAddrs_private addrs a ha hpriv

/-- C1 witness: for `http://h.example/` resolving to a public address first
and the private `10.0.0.1` second, the verdict is unsafe and the reason names
the private address. -/
theorem C1_witness :
    (is_url_safe "http://h.example/" resolveRoundRobin).1 = false ∧
      ∃ b ∈ ["93.184.216.34", "10.0.0.1"], is_private_ip b = true ∧
        (is_url_safe "http://h.example/" resolveRoundRobin).2 =
          "Access to internal network addresses is not allowed: " ++ b :=
  C1_private_resolved_unsafe "http://h.example/" resolveRoundRobin
    ⟨"http", "h.example", "/"⟩ ["93.184.216.34", "10.0.0.1"] "10.0.0.1"
    rfl (Or.inl rfl) (by decide) rfl (by decide) (by decide)

/-- C2 counterexample: for `ftp://x` the verdict is unsafe and the scheme rule
fires, but the literal reason string is
"Only HTTP and HTTPS protocols are allowed", not "protocol not allowed" as the
claim states. -/
theorem C2_counterexample :
    is_url_safe "ftp://x" (fun _ => ResolveOutcome.gaierror) =
      (false, "Only HTTP and HTTPS protocols are allowed") ∧
      ¬ (is_url_safe "ftp://x" (fun _ => ResolveOutcome.gaierror)).2 =
          "protocol not allowed" :=
  ⟨rfl, by decide⟩

/-- C2 (amended): for every URL that `urlparse` accepts with a scheme other
than http/https, `is_url_safe` is unsafe with reason
"Only HTTP and HTTPS protocols are allowed", and the verdict is the same for
every resolver — the rule fires before any other rule and no DNS resolution
is attempted. -/
theorem C2_scheme_rejected (url : String) (p : SplitResult)
    (hp : urlsplit url = Except.ok p)
    (hs : ¬ (p.scheme = "http" ∨ p.scheme = "https")) :
    ∀ resolve, is_url_safe url resolve =
      (false, "Only HTTP and HTTPS protocols are allowed") := by
  intro resolve
  unfold is_url_safe is_url_safe_body
  rw [hp]
  simp only [if_pos hs]

/-- C2 witness: `file:///etc/passwd` is rejected by the scheme rule even when
every resolver call would raise. -/
theorem C2_witness :
    is_url_safe "file:///etc/passwd" resolveBoom =
      (false, "Only HTTP and HTTPS protocols are allowed") :=
  C2_scheme_rejected "file:///etc/passwd" ⟨"file", "", "/etc/passwd"⟩ rfl
    (by decide) resolveBoom

/-- C3: `is_url_safe` is total and fails closed — it returns exactly the
value of its `try` body when no exception escapes, and converts any escaped
exception (resolver fault or `urlparse` `ValueError`) into an unsafe verdict
carrying the diagnostic reason. -/
theorem C3_fail_closed (url : String) (resolve : Option String → ResolveOutcome) :
    (∀ v, is_url_safe_body url resolve = Except.ok v →
      is_url_safe url resolve = v) ∧
    (∀ e, is_url_safe_body url resolve = Except.error e →
      is_url_safe url resolve = (false, "URL validation error: " ++ e)) := by
  constructor <;> intro x hx <;> unfold is_url_safe <;> rw [hx]

/-- C3 witness: a resolver that raises an unexpected exception is converted
into an unsafe verdict with a diagnostic reason. -/
theorem C3_witness :
    is_url_safe "http://x/" resolveBoom = (false, "URL validation error: boom") :=
  (C3_fail_closed "http://x/" resolveBoom).2 "boom" rfl

/-- C10: a resolver-returned string that `ipaddress.ip_address` cannot parse
is classified as non-private by `is_private_ip` — the `ValueError` is
swallowed and the check fails open at this layer. -/
theorem C10_unparseable_not_private (s : String) (h : ip_address s = none) :
    is_private_ip s = false := by
  unfold is_private_ip
  rw [h]

/-- C10 witness: `93.184.216.999` does not parse as an IP address and is
classified non-private. -/
theorem C10_witness :
    ip_address "93.184.216.999" = none ∧
      is_private_ip "93.184.216.999" = false :=
  ⟨rfl, C10_unparseable_not_private "93.184.216.999" rfl⟩

theorem outerCatch_snd_none (tid : Option String) (tr : List Call) (m : String)
    (h : pyTruthyStr tid = true) : (outerCatch tid tr m).2 = none := by
  simp [outerCatch, h]

theorem countFail_outerCatch (tid : Option String) (tr : List Call) (m : String) :
    countFail (outerCatch tid tr m).1 = countFail tr := by
  simp [outerCatch, countFail, List.countP_append, List.countP_cons, isFailT]

theorem countFail_append (a b : List Call) :
    countFail (a ++ b) = countFail a + countFail b := by
  simp [countFail, List.countP_append]

theorem innerCatch_snd_none (env : Env) (tid : Option String) (tr : List Call)
    (m : String) (h : pyTruthyStr tid = true) :
    (innerCatch env tid tr m).2 = none := by
  unfold innerCatch
  simp only [h, if_true]
  cases env.failOutcome (tid.getD "") ("Failed to process webpage: " ++ m) <;>
    exact outerCatch_snd_none _ _ _ h

theorem countFail_innerCatch_le (env : Env) (tid : Option String) (tr : List Call)
    (m : String) : countFail (innerCatch env tid tr m).1 ≤ countFail tr + 1 := by
  unfold innerCatch
  by_cases h : pyTruthyStr tid = true
  · simp only [h, if_true]
    cases env.failOutcome (tid.getD "") ("Failed to process webpage: " ++ m) <;>
      · rw [countFail_outerCatch, countFail_append]
        simp [countFail, List.countP_cons, isFailT]
  · rw [if_neg h, countFail_outerCatch, countFail_append]
    simp [countFail, List.countP_cons, isFailT]

theorem startPhase_countFail (env : Env) (idv : String) (d : Bool) (smsg : String) :
    countFail (startPhase env idv d smsg).1 = 0 := by
  unfold startPhase
  cases d <;> simp [countFail, List.countP_cons, isFailT]

theorem runPhase_snd_none (env : Env) (task_id : Option String)
    (startTr : List Call) (url lang : String) (h : pyTruthyStr task_id = true) :
    (runPhase env task_id startTr url lang).2 = none := by
  unfold runPhase
  cases env.agentRun url lang with
  | err m => exact innerCatch_snd_none _ _ _ _ h
  | ok s =>
    dsimp only
    rw [if_pos h]
    cases env.resolveOutcome (task_id.getD "") s with
    | ok => rfl
    | err m => exact innerCatch_snd_none _ _ _ _ h

theorem countFail_runPhase_le (env : Env) (task_id : Option String)
    (startTr : List Call) (url lang : String) (h0 : countFail startTr = 0) :
    countFail (runPhase env task_id startTr url lang).1 ≤ 1 := by
  unfold runPhase
  cases env.agentRun url lang with
  | err m =>
    refine le_trans (countFail_innerCatch_le _ _ _ _) ?_
    rw [countFail_append, h0]
    simp [countFail, List.countP_cons, isFailT]
  | ok s =>
    dsimp only
    by_cases h : pyTruthyStr task_id = true
    · rw [if_pos h]
      cases env.resolveOutcome (task_id.getD "") s with
      | ok =>
        dsimp only
        rw [countFail_append, h0]
        simp [countFail, List.countP_cons, isFailT]
      | err m =>
        refine le_trans (countFail_innerCatch_le _ _ _ _) ?_
        rw [countFail_append, h0]
        simp [countFail, List.countP_cons, isFailT]
    · rw [if_neg h]
      dsimp only
      rw [countFail_append, h0]
      simp [countFail, List.countP_cons, isFailT]

theorem exec_snd_none (env : Env) (task : PyTask)
    (h : pyTruthyStr task.task_id = true) :
    (execute_webpage_summary_task env task).2 = none := by
  unfold execute_webpage_summary_task
  cases hj : env.jsonArgs task.args with
  | err m => exact outerCatch_snd_none _ _ _ h
  | ok url langOpt =>
    dsimp only
    rcases hv : is_url_safe url env.resolve with ⟨b, r⟩
    cases b with
    | false =>
      dsimp only
      rw [if_neg Bool.false_ne_true, if_pos h]
      cases env.failOutcome (task.task_id.getD "") ("Security Error: " ++ r) <;>
        exact outerCatch_snd_none _ _ _ h
    | true =>
      dsimp only
      rw [if_pos rfl]
      cases hsp : (startPhase env (task.task_id.getD "")
          (pyTruthyStr task.task_id && task.status == some 0)
          ("Processing webpage: " ++ url)).2 with
      | some m => exact outerCatch_snd_none _ _ _ h
      | none => exact runPhase_snd_none _ _ _ _ _ h

theorem exec_countFail_le (env : Env) (task : PyTask) :
    countFail (execute_webpage_summary_task env task).1 ≤ 1 := by
  unfold execute_webpage_summary_task
  cases hj : env.jsonArgs task.args with
  | err m =>
    rw [countFail_outerCatch]
    simp [countFail]
  | ok url langOpt =>
    dsimp only
    rcases hv : is_url_safe url env.resolve with ⟨b, r⟩
    cases b with
    | false =>
      dsimp only
      rw [if_neg Bool.false_ne_true]
      by_cases h : pyTruthyStr task.task_id = true
      · rw [if_pos h]
        cases env.failOutcome (task.task_id.getD "") ("Security Error: " ++ r) <;>
          · rw [countFail_outerCatch]
            simp [countFail, List.countP_cons, isFailT]
      · rw [if_neg h]
        rw [countFail_outerCatch]
        simp [countFail, List.countP_cons, isFailT]
    | true =>
      dsimp only
      rw [if_pos rfl]
      cases hsp : (startPhase env (task.task_id.getD "")
          (pyTruthyStr task.task_id && task.status == some 0)
          ("Processing webpage: " ++ url)).2 with
      | some m =>
        rw [countFail_outerCatch, startPhase_countFail]
        exact Nat.zero_le 1
      | none => exact countFail_runPhase_le _ _ _ _ _ (startPhase_countFail _ _ _ _)

/-- C7: for every task carrying a truthy `task_id`,
`execute_webpage_summary_task` re-raises no exception — whatever the oracles
do — and attempts at most one `fail_task` transition, so a fault in one task
cannot abort the remaining tasks of a poll cycle. -/
theorem C7_task_fault_isolated (env : Env) (task : PyTask)
    (h : pyTruthyStr task.task_id = true) :
    (execute_webpage_summary_task env task).2 = none ∧
      countFail (execute_webpage_summary_task env task).1 ≤ 1 :=
  ⟨exec_snd_none env task h, exec_countFail_le env task⟩

/-- C7 witness: with a failing `resolve_task` ledger submit, the executor
still returns without re-raising and attempts exactly at most one
`fail_task`. -/
theorem C7_witness :
    (execute_webpage_summary_task env7W taskW).2 = none ∧
      countFail (execute_webpage_summary_task env7W taskW).1 ≤ 1 :=
  C7_task_fault_isolated env7W taskW rfl

/-- C4 counterexample: with a task whose arguments do not parse (and a truthy
`task_id`), the executor calls neither `fail_task` nor the agent — the claim
that a Failed transition is submitted is false at this input. -/
theorem C4_counterexample :
    envBaseW.jsonArgs taskW.args =
        ArgsOutcome.err "Expecting value: line 1 column 1 (char 0)" ∧
      countFail (execute_webpage_summary_task envBaseW taskW).1 = 0 ∧
      countAgent (execute_webpage_summary_task envBaseW taskW).1 = 0 :=
  ⟨rfl, rfl, rfl⟩

/-- C4 (amended): when the task arguments fail to decode and the task carries
a truthy `task_id`, `execute_webpage_summary_task` invokes neither the agent
backend nor any ledger transition (no `fail_task`): the exception is caught
by the outer handler, which only logs it, and nothing is re-raised. -/
theorem C4_bad_args_no_transition (env : Env) (task : PyTask) (m : String)
    (hargs : env.jsonArgs task.args = ArgsOutcome.err m)
    (hid : pyTruthyStr task.task_id = true) :
    execute_webpage_summary_task env task =
      ([Call.logT ("Error executing webpage summary task: " ++ m)], none) := by
  unfold execute_webpage_summary_task
  rw [hargs]
  simp [outerCatch, hid]

/-- C4 witness: the amended statement at the concrete failing input. -/
theorem C4_witness :
    execute_webpage_summary_task envBaseW taskW =
      ([Call.logT ("Error executing webpage summary task: " ++
          "Expecting value: line 1 column 1 (char 0)")], none) :=
  C4_bad_args_no_transition envBaseW taskW
    "Expecting value: line 1 column 1 (char 0)" rfl rfl

/-- C5: a task with a truthy `task_id` whose URL fails the safety check gets
exactly one `fail_task` transition whose message is
`"Security Error: " ++ reason`, the agent backend is never invoked, and
nothing is re-raised. -/
theorem C5_unsafe_url_failed_transition (env : Env) (task : PyTask)
    (id url : String) (langOpt : Option String) (reason : String)
    (hid : task.task_id = some id) (hidne : ¬ id = "")
    (hargs : env.jsonArgs task.args = ArgsOutcome.ok url langOpt)
    (hbadurl : is_url_safe url env.resolve = (false, reason)) :
    (∃ x, execute_webpage_summary_task env task =
       ([Call.failT id ("Security Error: " ++ reason), Call.logT x], none)) ∧
      countAgent (execute_webpage_summary_task env task).1 = 0 := by
  have htr : pyTruthyStr (some id) = true := by simp [pyTruthyStr, hidne]
  unfold execute_webpage_summary_task
  rw [hargs]
  dsimp only
  rw [hbadurl, hid]
  dsimp only
  rw [if_neg Bool.false_ne_true, if_pos htr]
  cases hf : env.failOutcome id ("Security Error: " ++ reason) with
  | ok =>
    refine ⟨⟨"Error executing webpage summary task: " ++
      ("Security Error: " ++ reason), ?_⟩, ?_⟩ <;>
      simp [hf, outerCatch, htr, countAgent, List.countP_cons, List.countP_nil, isAgentT]
  | err m2 =>
    refine ⟨⟨"Error executing webpage summary task: " ++ m2, ?_⟩, ?_⟩ <;>
      simp [hf, outerCatch, htr, countAgent, List.countP_cons, List.countP_nil, isAgentT]

/-- C5 witness: the spec's end-to-end scenario 1 — a task whose arguments
name `http://10.0.0.5/` gets a Failed transition whose message contains both
"Security Error" and "10.0.0.5", and the agent is never invoked. -/
theorem C5_witness :
    (∃ x, execute_webpage_summary_task env5W taskW =
       ([Call.failT "0x1" ("Security Error: " ++
           "Access to internal network addresses is not allowed: 10.0.0.5"),
         Call.logT x], none)) ∧
      countAgent (execute_webpage_summary_task env5W taskW).1 = 0 :=
  C5_unsafe_url_failed_transition env5W taskW "0x1" "http://10.0.0.5/" none
    "Access to internal network addresses is not allowed: 10.0.0.5"
    rfl (by decide) rfl rfl

/-- C6 counterexample: with a failing `start_task` submit (and a safe URL,
Pending status, truthy id), the agent is not invoked and no terminal
transition is attempted — refuting the claim that the Started transition is
best-effort. -/
theorem C6_counterexample :
    env6W.startOutcome "0x1" "Processing webpage: http://ok.example/" =
        CallOutcome.err "Transaction failed: moveabort" ∧
      execute_webpage_summary_task env6W taskW =
        ([Call.startT "0x1" "Processing webpage: http://ok.example/",
          Call.logT "Error executing webpage summary task: Transaction failed: moveabort"],
         none) ∧
      countAgent (execute_webpage_summary_task env6W taskW).1 = 0 ∧
      countTerminal (execute_webpage_summary_task env6W taskW).1 = 0 :=
  ⟨rfl, rfl, rfl, rfl⟩

/-- C6 (amended): the Started transition is not best-effort — if `start_task`
raises, the error is only logged and that task's execution is aborted: the
agent backend is not invoked and no terminal transition is attempted; the
exception does not propagate out of the executor. -/
theorem C6_start_failure_aborts_task (env : Env) (task : PyTask)
    (id url : String) (langOpt : Option String) (r m : String)
    (hid : task.task_id = some id) (hidne : ¬ id = "")
    (hargs : env.jsonArgs task.args = ArgsOutcome.ok url langOpt)
    (hsafe : is_url_safe url env.resolve = (true, r))
    (hstatus : task.status = some 0)
    (hstart : env.startOutcome id ("Processing webpage: " ++ url) = CallOutcome.err m) :
    execute_webpage_summary_task env task =
      ([Call.startT id ("Processing webpage: " ++ url),
        Call.logT ("Error executing webpage summary task: " ++ m)], none) := by
  have htr : pyTruthyStr (some id) = true := by simp [pyTruthyStr, hidne]
  unfold execute_webpage_summary_task
  rw [hargs]
  dsimp only
  rw [hsafe, hid, hstatus]
  dsimp only
  rw [if_pos rfl]
  simp [startPhase, htr, hstart, outerCatch]

/-- C6 witness: the amended statement at the concrete failing input. -/
theorem C6_witness :
    execute_webpage_summary_task env6W taskW =
      ([Call.startT "0x1" ("Processing webpage: " ++ "http://ok.example/"),
        Call.logT ("Error executing webpage summary task: " ++
          "Transaction failed: moveabort")], none) :=
  C6_start_failure_aborts_task env6W taskW "0x1" "http://ok.example/" none
    "URL is safe" "Transaction failed: moveabort" rfl (by decide) rfl rfl rfl rfl

theorem procTasks_mem (sched : Nat → Bool) (ts : List PyTask) (k : Nat) :
    ∀ e ∈ (procTasks sched ts k).1, ∃ j t, e = SEv.dispatchE j t ∧
      sched j = false ∧ t.name = "task::webpage_summary" := by
  induction ts generalizing k with
  | nil =>
    intro e he
    simp [procTasks] at he
  | cons t ts ih =>
    intro e he
    by_cases hk : sched k = true
    · rw [procTasks, if_pos hk] at he
      simp at he
    · rw [procTasks, if_neg hk] at he
      have hk' : sched k = false := by
        cases hcase : sched k
        · rfl
        · exact absurd hcase hk
      by_cases hn : t.name = "task::webpage_summary"
      · rw [if_pos hn] at he
        rcases List.mem_cons.mp he with h | h
        · exact ⟨k, t, h, hk', hn⟩
        · exact ih (k + 1) e h
      · rw [if_neg hn] at he
        exact ih (k + 1) e he

/-- C8: every `listPending` poll and every task dispatch in the subscriber
trace happens under an `is_set` observation that returned false (so once the
shutdown event is set — it is never cleared — no new poll and no new dispatch
occurs, the per-task loop breaking before dispatch); every between-cycle wait
uses the configured poll interval (default 1); and a set event at the loop
head terminates the loop with an empty remaining trace. -/
theorem C8_cooperative_shutdown (cfg : SubCfg) (pending : Nat → List PyTask)
    (sched : Nat → Bool) (fuel k cyc : Nat) :
    (∀ j, SEv.pollE j ∈ task_subscriber cfg pending sched fuel k cyc →
      sched j = false) ∧
    (∀ j t, SEv.dispatchE j t ∈ task_subscriber cfg pending sched fuel k cyc →
      sched j = false) ∧
    (∀ x, SEv.waitE x ∈ task_subscriber cfg pending sched fuel k cyc →
      x = cfg.poll_interval.getD 1) ∧
    (sched k = true → task_subscriber cfg pending sched fuel k cyc = []) := by
  induction fuel generalizing k cyc with
  | zero => simp [task_subscriber]
  | succ fuel ih =>
    by_cases hk : sched k = true
    · rw [task_subscriber, if_pos hk]
      simp
    · have hk' : sched k = false := by
        cases hcase : sched k
        · rfl
        · exact absurd hcase hk
      rw [task_subscriber, if_neg hk]
      refine ⟨?_, ?_, ?_, fun hcon => absurd hcon hk⟩
      · intro j hj
        rcases List.mem_cons.mp hj with h | h
        · cases h
          exact hk'
        · rcases List.mem_append.mp h with h | h
          · obtain ⟨j2, t2, he, _, _⟩ := procTasks_mem sched (pending cyc) (k + 1) _ h
            cases he
          · rcases List.mem_cons.mp h with h | h
            · cases h
            · exact (ih _ _).1 j h
      · intro j t hj
        rcases List.mem_cons.mp hj with h | h
        · cases h
        · rcases List.mem_append.mp h with h | h
          · obtain ⟨j2, t2, he, hs, _⟩ := procTasks_mem sched (pending cyc) (k + 1) _ h
            cases he
            exact hs
          · rcases List.mem_cons.mp h with h | h
            · cases h
            · exact (ih _ _).2.1 j t h
      · intro x hx
        rcases List.mem_cons.mp hx with h | h
        · cases h
        · rcases List.mem_append.mp h with h | h
          · obtain ⟨j2, t2, he, _, _⟩ := procTasks_mem sched (pending cyc) (k + 1) _ h
            cases he
          · rcases List.mem_cons.mp h with h | h
            · cases h
              rfl
            · exact (ih _ _).2.2.1 x h

/-- C8 witness: with the shutdown event already set at the loop head, the
subscriber produces no events at all — no `listPending`, no dispatch. -/
theorem C8_witness :
    task_subscriber ⟨some 7⟩ (fun _ => []) (fun _ => true) 5 0 0 = [] :=
  (C8_cooperative_shutdown ⟨some 7⟩ (fun _ => []) (fun _ => true) 5 0 0).2.2.2 rfl

theorem buildPending_status (os : List RawObj) (l : List PyTask)
    (h : buildPending os = Except.ok l) :
    ∀ t ∈ l, t.status = some 0 ∨ t.status = some 1 := by
  induction os generalizing l with
  | nil =>
    intro t ht
    rw [buildPending] at h
    cases h
    simp at ht
  | cons o os ih =>
    intro t ht
    rw [buildPending] at h
    by_cases hty : listEndsWith (o.dvType.getD "").data "::task::Task".data = true
    · rw [if_pos hty] at h
      dsimp only at h
      cases hst : (o.dvValue.getD emptyTaskValue).status with
      | none =>
        rw [hst] at h
        exact ih l h t ht
      | some s =>
        rw [hst] at h
        dsimp only at h
        by_cases hs : (s == 0 || s == 1) = true
        · rw [if_pos hs] at h
          cases hoid : o.id with
          | none =>
            rw [hoid] at h
            cases h
          | some i =>
            rw [hoid] at h
            cases hbp : buildPending os with
            | error e =>
              rw [hbp] at h
              cases h
            | ok rest =>
              rw [hbp] at h
              cases h
              rcases List.mem_cons.mp ht with h1 | h1
              · subst h1
                have hs2 : s = 0 ∨ s = 1 := by simpa using hs
                rcases hs2 with h2 | h2
                · left
                  rw [h2]
                · right
                  rw [h2]
              · exact ih rest hbp t h1
        · rw [if_neg hs] at h
          exact ih l h t ht
    · rw [if_neg hty] at h
      exact ih l h t ht

theorem subscriber_dispatch_name (cfg : SubCfg) (pending : Nat → List PyTask)
    (sched : Nat → Bool) (fuel k cyc : Nat) :
    ∀ j t, SEv.dispatchE j t ∈ task_subscriber cfg pending sched fuel k cyc →
      t.name = "task::webpage_summary" := by
  induction fuel generalizing k cyc with
  | zero =>
    intro j t hj
    simp [task_subscriber] at hj
  | succ fuel ih =>
    intro j t hj
    by_cases hk : sched k = true
    · rw [task_subscriber, if_pos hk] at hj
      simp at hj
    · rw [task_subscriber, if_neg hk] at hj
      rcases List.mem_cons.mp hj with h | h
      · cases h
      · rcases List.mem_append.mp h with h | h
        · obtain ⟨j2, t2, he, _, hn⟩ := procTasks_mem sched (pending cyc) (k + 1) _ h
          cases he
          exact hn
        · rcases List.mem_cons.mp h with h | h
          · cases h
          · exact ih _ _ j t h

/-- C9: every task returned by `get_pending_tasks` has status 0 (Pending) or
1 (Started) — terminal Resolved(2)/Failed(3) objects are never included — and
`task_subscriber` dispatches a task only when its name is the registered
handler name `task::webpage_summary`. -/
theorem C9_eligibility :
    (∀ res t, t ∈ get_pending_tasks res →
      t.status = some 0 ∨ t.status = some 1) ∧
    (∀ cfg pending sched fuel k cyc j t,
      SEv.dispatchE j t ∈ task_subscriber cfg pending sched fuel k cyc →
      t.name = "task::webpage_summary") := by
  constructor
  · intro res t ht
    cases res with
    | raised m => simp [get_pending_tasks] at ht
    | noJson => simp [get_pending_tasks] at ht
    | ok d =>
      cases d with
      | none => simp [get_pending_tasks] at ht
      | some objs =>
        unfold get_pending_tasks at ht
        dsimp only at ht
        cases hbp : buildPending objs with
        | ok l =>
          rw [hbp] at ht
          exact buildPending_status objs l hbp t ht
        | error e =>
          rw [hbp] at ht
          simp at ht
  · intro cfg pending sched fuel k cyc j t hj
    exact subscriber_dispatch_name cfg pending sched fuel k cyc j t hj

/-- C9 witness: the single pending task of the concrete query result `cmdW`
has an eligible status. -/
theorem C9_witness : pendW.status = some 0 ∨ pendW.status = some 1 :=
  C9_eligibility.1 cmdW pendW (by decide)

end NuwaWS
